import Mathlib

/-!
Shallow embedding of the Session/Role authentication context of the
travonex_com repository (src/hooks/use-auth.tsx and its variant), the
admin-section route guard (src/app/blog/admin/layout.tsx), and the
round-trip behaviour of the five auth operations.

External collaborators (identity provider, document store, blob storage)
are modelled by explicit parameters: provider outcomes are passed in as
`Except` values, the document store is an association list keyed by the
identity id, and every operation records the list of round trips it makes.
-/

namespace Travonex

/-- Roles as stored in the Firestore `users` collection:
`'user' | 'editor' | 'admin'` (the spec names them regular / editor /
administrator). -/
inductive UserRole where
  | user
  | editor
  | admin
deriving DecidableEq

/-- The identity-provider user object (`FirebaseUser`): stable id, optional
display name, email and avatar URL. -/
structure Identity where
  uid : String
  displayName : Option String
  email : Option String
  photoURL : Option String
deriving DecidableEq

/-- The application's Role Record: the document written to the `users`
collection, keyed by identity id. -/
structure RoleRecord where
  name : String
  email : String
  role : UserRole
  createdAt : Nat
deriving DecidableEq

/-- The document store's `users` collection, keyed by identity id. -/
abbrev Store := List (String × RoleRecord)

/-- `getDoc(doc(db, 'users', uid))`: look the record up by id. -/
def getDoc (s : Store) (uid : String) : Option RoleRecord :=
  s.lookup uid

/-- `setDoc(doc(db, 'users', uid), r)`: write (overwrite) the record. -/
def setDoc (s : Store) (uid : String) (r : RoleRecord) : Store :=
  (uid, r) :: s

/-- The error taxonomy surfaced by the provider and by the hook itself. -/
inductive AuthError where
  | invalidCredentials
  | emailAlreadyInUse
  | weakPassword
  | popupClosedByUser
  | networkError
  | outsideProvider
deriving DecidableEq

/-- The reactive session state held by the AuthProvider: `user`,
`firebaseUser`, `userRole` and `loading` (the variant hook keeps both the
merged `user` and the raw `firebaseUser`). -/
structure SessionState where
  user : Option Identity
  firebaseUser : Option Identity
  userRole : Option UserRole
  loading : Bool
deriving DecidableEq

/-- The state the provider mounts with: everything absent, `loading` true. -/
def initialState : SessionState :=
  { user := none, firebaseUser := none, userRole := none, loading := true }

/-- JavaScript `a || b` on an optional string: the empty string is falsy. -/
def jsOr (a : Option String) (b : String) : String :=
  match a with
  | some s => if s = "" then b else s
  | none => b

/-- The default Role Record the stream handler writes for an authenticated
identity with no existing document:
`{ name: user.displayName || user.email || '', email: user.email || '',
role: 'user', created_at }`. -/
def defaultRecord (u : Identity) (now : Nat) : RoleRecord :=
  { name := jsOr u.displayName (jsOr u.email "")
    email := u.email.getD ""
    role := UserRole.user
    createdAt := now }

/-- One `onAuthStateChanged` callback run: on a non-null identity, look up
the Role Record; use its role if present, otherwise create a default record
with role `user`; on null, clear user and role. Always ends with
`setLoading(false)`. Returns the session state observed when the handler
completes, together with the (possibly extended) store. -/
def streamEvent (store : Store) (ev : Option Identity) (now : Nat) :
    SessionState × Store :=
  match ev with
  | some u =>
    match getDoc store u.uid with
    | some r =>
      ({ user := some u, firebaseUser := some u
         userRole := some r.role, loading := false }, store)
    | none =>
      ({ user := some u, firebaseUser := some u
         userRole := some UserRole.user, loading := false },
       setDoc store u.uid (defaultRecord u now))
  | none =>
    ({ user := none, firebaseUser := none
       userRole := none, loading := false }, store)

/-- The session states observed after each stream event of a sequence, the
store threading through. -/
def observedStates (store : Store) :
    List (Option Identity × Nat) → List SessionState
  | [] => []
  | (ev, now) :: rest =>
    let p := streamEvent store ev now
    p.1 :: observedStates p.2 rest

/-- The §3 invariant: identity and role both set, or both absent, or the
state is still loading. -/
def sessionInvariant (st : SessionState) : Bool :=
  (st.user.isSome && st.userRole.isSome) ||
  (st.user.isNone && st.userRole.isNone) ||
  st.loading

/-- A round trip to an external collaborator. -/
inductive RoundTrip where
  | provider
  | store
  | blob
deriving DecidableEq

/-- The outcome of one auth operation: result surfaced to the caller, the
session state and store afterwards, and the round trips made. -/
structure OpResult (α : Type) where
  result : Except AuthError α
  state : SessionState
  store : Store
  trips : List RoundTrip

/-- `login`: `return await signInWithEmailAndPassword(auth, email, password)`.
One provider round trip; the result — success or rejection — is surfaced
unchanged, and no session state or store is touched by the call itself. -/
def login (st : SessionState) (store : Store)
    (providerResult : Except AuthError Identity) : OpResult Identity :=
  { result := providerResult, state := st, store := store
    trips := [RoundTrip.provider] }

/-- `signup(email, password, displayName)`: `createUserWithEmailAndPassword`
(provider), then `updateProfile` setting the display name (provider), then
`setDoc` of `{ name, email, role: 'user', created_at }` (store), then
`setUser` / `setUserRole('user')`. On provider rejection the error
propagates after the one failed provider trip. -/
def signup (st : SessionState) (store : Store)
    (createResult : Except AuthError Identity)
    (email _password displayName : String) (now : Nat) : OpResult Unit :=
  match createResult with
  | Except.error e =>
    { result := Except.error e, state := st, store := store
      trips := [RoundTrip.provider] }
  | Except.ok u =>
    { result := Except.ok ()
      state := { st with user := some { u with displayName := some displayName }
                         userRole := some UserRole.user }
      store := setDoc store u.uid
        { name := displayName, email := email
          role := UserRole.user, createdAt := now }
      trips := [RoundTrip.provider, RoundTrip.provider, RoundTrip.store] }

/-- `logout`: `await signOut(auth); router.push('/login')`. No try/catch:
a provider rejection propagates to the caller and the navigation is
skipped. The Bool records whether the redirect to `/login` ran. -/
def logout (st : SessionState) (store : Store)
    (providerResult : Except AuthError Unit) : OpResult Unit × Bool :=
  match providerResult with
  | Except.error e =>
    ({ result := Except.error e, state := st, store := store
       trips := [RoundTrip.provider] }, false)
  | Except.ok _ =>
    ({ result := Except.ok (), state := st, store := store
       trips := [RoundTrip.provider] }, true)

/-- The record `googleSignIn` writes for a first-time federated identity:
`{ name: user.displayName || '', email: user.email || '', role: 'user',
created_at }`. -/
def defaultGoogleRecord (u : Identity) (now : Nat) : RoleRecord :=
  { name := jsOr u.displayName ""
    email := u.email.getD ""
    role := UserRole.user
    createdAt := now }

/-- `googleSignIn`: `signInWithPopup` (provider), then always `getDoc`
(store read); if no Role Record exists, `setDoc` a default one (store
write) and `setUserRole('user')`, otherwise `setUserRole` from the
existing record. Returns the credential. -/
def googleSignIn (st : SessionState) (store : Store)
    (popupResult : Except AuthError Identity) (now : Nat) :
    OpResult Identity :=
  match popupResult with
  | Except.error e =>
    { result := Except.error e, state := st, store := store
      trips := [RoundTrip.provider] }
  | Except.ok u =>
    match getDoc store u.uid with
    | some r =>
      { result := Except.ok u
        state := { st with userRole := some r.role }
        store := store
        trips := [RoundTrip.provider, RoundTrip.store] }
    | none =>
      { result := Except.ok u
        state := { st with userRole := some UserRole.user }
        store := setDoc store u.uid (defaultGoogleRecord u now)
        trips := [RoundTrip.provider, RoundTrip.store, RoundTrip.store] }

/-- The avatar field of an `updateUser` payload: absent, already a string
URL, or a file blob that must be uploaded first. -/
inductive AvatarField where
  | absent
  | url (s : String)
  | blob (bytes : List Nat)
deriving DecidableEq

/-- The download URL blob storage returns for `avatars/{uid}`. -/
def blobUrl (uid : String) : String :=
  "avatars/" ++ uid

/-- `updateDoc(userDocRef, { ...data, avatar: downloadURL })`: merge the new
name into the existing Role Record (a missing document is left untouched;
the claims do not exercise that path). -/
def updateDoc (s : Store) (uid : String) (name : String) : Store :=
  match getDoc s uid with
  | some r => setDoc s uid { r with name := name }
  | none => s

/-- `updateUser(data)`: `if (!firebaseUser) return;` — an anonymous call
returns at once, a silent no-op with no round trips. Otherwise: if the
payload holds an avatar blob, `uploadBytes` then `getDownloadURL` (two blob
trips); then `updateProfile` on the identity (provider) and `updateDoc` on
the Role Record (store); finally `setUser` with the merged fields. -/
def updateUser (st : SessionState) (store : Store)
    (name : String) (avatar : AvatarField) : OpResult Unit :=
  match st.firebaseUser with
  | none =>
    { result := Except.ok (), state := st, store := store, trips := [] }
  | some fu =>
    let dl : Option String × List RoundTrip :=
      match avatar with
      | AvatarField.blob _ =>
        (some (blobUrl fu.uid), [RoundTrip.blob, RoundTrip.blob])
      | _ => (fu.photoURL, [])
    let fu' : Identity :=
      { fu with displayName := some name, photoURL := dl.1 }
    { result := Except.ok ()
      state := { st with user := some fu' }
      store := updateDoc store fu.uid name
      trips := dl.2 ++ [RoundTrip.provider, RoundTrip.store] }

/-- What the admin layout renders for a given session state. -/
inductive AdminView where
  | loadingView
  | accessDenied
  | adminContent
deriving DecidableEq

/-- The AdminLayout route guard: while loading, a loading screen; then
`if (!user || (userRole !== 'admin' && userRole !== 'editor'))` an
Access Denied screen; otherwise the admin content. -/
def adminLayout (st : SessionState) : AdminView :=
  if st.loading then AdminView.loadingView
  else if st.user.isNone ||
      !(st.userRole == some UserRole.admin ||
        st.userRole == some UserRole.editor) then
    AdminView.accessDenied
  else AdminView.adminContent

/-- The guard effect: once loading is over, an unauthorized session is
redirected to `/login`. -/
def adminLayoutRedirects (st : SessionState) : Bool :=
  !st.loading &&
  (st.user.isNone ||
   !(st.userRole == some UserRole.admin ||
     st.userRole == some UserRole.editor))

/-- The set of live subscriptions to the provider's session stream, with a
fresh-id counter. -/
structure SubPool where
  nextId : Nat
  live : List Nat
deriving DecidableEq

/-- `onAuthStateChanged(auth, handler)`: register one subscription, handing
back its id. -/
def subscribeStream (p : SubPool) : SubPool × Nat :=
  ({ nextId := p.nextId + 1, live := p.live ++ [p.nextId] }, p.nextId)

/-- The `unsubscribe` closure returned by the provider: cancel that one
subscription. -/
def unsubscribeStream (p : SubPool) (id : Nat) : SubPool :=
  { p with live := p.live.filter (fun x => x != id) }

/-- The AuthProvider's `useEffect` body (run once per mount, `[]` deps):
open exactly one stream subscription and return the cleanup
`() => unsubscribe()` that React invokes on every teardown. -/
def authEffect (p : SubPool) : SubPool × (SubPool → SubPool) :=
  let s := subscribeStream p
  (s.1, fun q => unsubscribeStream q s.2)

/-- Every live subscription id predates the counter. -/
def freshPool (p : SubPool) : Prop :=
  ∀ x ∈ p.live, x < p.nextId

/-- `useAuth()`: read the context; if it is undefined (no enclosing
AuthProvider), throw; otherwise return the context value. -/
def useAuthHook (ctx : Option SessionState) :
    Except AuthError SessionState :=
  match ctx with
  | none => Except.error AuthError.outsideProvider
  | some c => Except.ok c

/-- A concrete identity used in scenario instances. -/
def u0 : Identity :=
  { uid := "uid-1", displayName := some "Jane"
    email := some "new@x.com", photoURL := none }

/-- A concrete Role Record already present in the store. -/
def rec0 : RoleRecord :=
  { name := "Jane", email := "new@x.com"
    role := UserRole.editor, createdAt := 5 }

/-- A store holding `rec0` under `u0`'s id. -/
def store0 : Store := [(u0.uid, rec0)]

/-- The Anonymous session state (after a null stream event). -/
def anonState : SessionState :=
  { user := none, firebaseUser := none, userRole := none, loading := false }

/-- An Authenticated session state with the given identity and role. -/
def authState (u : Identity) (r : UserRole) : SessionState :=
  { user := some u, firebaseUser := some u
    userRole := some r, loading := false }

/-- Writing a record and reading it back under the same id yields it. -/
theorem getDoc_setDoc (s : Store) (uid : String) (r : RoleRecord) :
    getDoc (setDoc s uid r) uid = some r := by
  simp [getDoc, setDoc, List.lookup]

/-- C1: for every sequence of session-stream events, every session state
observed after a completed event — and the initial state — satisfies the
invariant: identity and role both populated, both absent, or still in the
transient loading state; in particular the role is never populated while
the identity is absent. -/
theorem observed_session_invariant (store : Store)
    (events : List (Option Identity × Nat)) :
    sessionInvariant initialState = true ∧
    ∀ st ∈ observedStates store events, sessionInvariant st = true := by
  refine ⟨rfl, ?_⟩
  induction events generalizing store with
  | nil => intro st h; cases h
  | cons e rest ih =>
    intro st h
    obtain ⟨ev, now⟩ := e
    simp only [observedStates, List.mem_cons] at h
    rcases h with h | h
    · subst h
      cases ev with
      | none => rfl
      | some u =>
        simp only [streamEvent]
        cases getDoc store u.uid <;> rfl
    · exact ih _ _ h

/-- C1 witness: the invariant holds at the concrete state observed after a
null event. -/
theorem observed_session_invariant_witness :
    sessionInvariant
      { user := none, firebaseUser := none
        userRole := none, loading := false } = true :=
  (observed_session_invariant [] [(none, 0)]).2 _ (by decide)

/-- C2: on an authenticated identity, both the stream handler and the
federated sign-in use an existing Role Record's role unchanged without
writing; when no record exists, each creates one with default role `user`
before the transition to Authenticated completes. -/
theorem role_record_lazy_creation (st : SessionState) (store : Store)
    (u : Identity) (now : Nat) :
    (∀ r, getDoc store u.uid = some r →
      streamEvent store (some u) now =
        ({ user := some u, firebaseUser := some u
           userRole := some r.role, loading := false }, store) ∧
      (googleSignIn st store (Except.ok u) now).store = store ∧
      (googleSignIn st store (Except.ok u) now).state.userRole =
        some r.role) ∧
    (getDoc store u.uid = none →
      (streamEvent store (some u) now).1 =
        { user := some u, firebaseUser := some u
          userRole := some UserRole.user, loading := false } ∧
      getDoc (streamEvent store (some u) now).2 u.uid =
        some (defaultRecord u now) ∧
      (defaultRecord u now).role = UserRole.user ∧
      (googleSignIn st store (Except.ok u) now).state.userRole =
        some UserRole.user ∧
      getDoc (googleSignIn st store (Except.ok u) now).store u.uid =
        some (defaultGoogleRecord u now) ∧
      (defaultGoogleRecord u now).role = UserRole.user) := by
  constructor
  · intro r h
    simp [streamEvent, googleSignIn, h]
  · intro h
    simp [streamEvent, googleSignIn, h, getDoc_setDoc,
      defaultRecord, defaultGoogleRecord]

/-- C2 witness: at a concrete identity and empty store, the record created
has role `user` and the session transitions to `user` role. -/
theorem role_record_lazy_creation_witness :
    (streamEvent [] (some u0) 0).1 =
      { user := some u0, firebaseUser := some u0
        userRole := some UserRole.user, loading := false } ∧
    getDoc (streamEvent [] (some u0) 0).2 u0.uid =
      some (defaultRecord u0 0) :=
  ⟨((role_record_lazy_creation anonState [] u0 0).2 rfl).1,
   ((role_record_lazy_creation anonState [] u0 0).2 rfl).2.1⟩

/-- C3: the admin layout renders the moderation content exactly for a
non-loading session with a present user whose role is `admin` or `editor`;
a `user`-role or anonymous session is never shown that content and, once
loading is over, sees the Access Denied view and is redirected; an
authenticated `admin` session is always allowed. -/
theorem moderation_gating (st : SessionState) :
    (adminLayout st = AdminView.adminContent ↔
      st.loading = false ∧ st.user.isSome = true ∧
      (st.userRole = some UserRole.admin ∨
       st.userRole = some UserRole.editor)) ∧
    (st.userRole = some UserRole.user →
      adminLayout st ≠ AdminView.adminContent) ∧
    (st.user = none → adminLayout st ≠ AdminView.adminContent) ∧
    (st.loading = false →
      (st.userRole = some UserRole.user ∨ st.user = none) →
      adminLayout st = AdminView.accessDenied ∧
      adminLayoutRedirects st = true) ∧
    (st.loading = false → st.user.isSome = true →
      st.userRole = some UserRole.admin →
      adminLayout st = AdminView.adminContent) := by
  rcases st with ⟨u, fu, r, l⟩
  cases l <;> cases u <;> rcases r with _ | (_ | _ | _) <;>
    simp [adminLayout, adminLayoutRedirects]

/-- C3 witness: concrete instances — an authenticated admin sees the
moderation content; an authenticated `user`-role session is denied and
redirected. -/
theorem moderation_gating_witness :
    adminLayout (authState u0 UserRole.admin) = AdminView.adminContent ∧
    adminLayout (authState u0 UserRole.user) = AdminView.accessDenied ∧
    adminLayoutRedirects (authState u0 UserRole.user) = true :=
  ⟨(moderation_gating (authState u0 UserRole.admin)).2.2.2.2 rfl rfl rfl,
   ((moderation_gating (authState u0 UserRole.user)).2.2.2.1 rfl
     (Or.inl rfl)).1,
   ((moderation_gating (authState u0 UserRole.user)).2.2.2.1 rfl
     (Or.inl rfl)).2⟩

/-- C4 counterexample: an anonymous `updateUser` call does not fail with a
`NotAuthenticated` error — it resolves successfully (a silent no-op),
though it does make zero round trips. -/
theorem updateProfile_anonymous_not_error :
    (updateUser anonState [] "Jane" AvatarField.absent).result =
      Except.ok () ∧
    (updateUser anonState [] "Jane" AvatarField.absent).trips = [] :=
  ⟨rfl, rfl⟩

/-- C4 amended: every anonymous `updateUser` call returns successfully as a
silent no-op — no error is raised, the session state and store are
unchanged, and zero round trips are made to the document store or blob
storage. -/
theorem updateProfile_anonymous_noop (st : SessionState) (store : Store)
    (name : String) (avatar : AvatarField) (h : st.firebaseUser = none) :
    (updateUser st store name avatar).result = Except.ok () ∧
    (updateUser st store name avatar).state = st ∧
    (updateUser st store name avatar).store = store ∧
    (updateUser st store name avatar).trips = [] := by
  simp [updateUser, h]

/-- C4 amended witness: the anonymous no-op at a concrete call. -/
theorem updateProfile_anonymous_noop_witness :
    (updateUser anonState [] "Jane" (AvatarField.blob [1])).result =
      Except.ok () ∧
    (updateUser anonState [] "Jane" (AvatarField.blob [1])).trips = [] :=
  ⟨(updateProfile_anonymous_noop anonState [] "Jane"
      (AvatarField.blob [1]) rfl).1,
   (updateProfile_anonymous_noop anonState [] "Jane"
      (AvatarField.blob [1]) rfl).2.2.2⟩

/-- C5 counterexample: when the provider's sign-out call throws, `logout`
surfaces that error to its caller (there is no catch), the redirect is
skipped, and the session stays Authenticated rather than ending
Anonymous. -/
theorem signOut_error_surfaced :
    (logout (authState u0 UserRole.admin) store0
        (Except.error AuthError.networkError)).1.result =
      Except.error AuthError.networkError ∧
    (logout (authState u0 UserRole.admin) store0
        (Except.error AuthError.networkError)).2 = false ∧
    (logout (authState u0 UserRole.admin) store0
        (Except.error AuthError.networkError)).1.state =
      authState u0 UserRole.admin :=
  ⟨rfl, rfl, rfl⟩

/-- C5 amended: `logout` delegates to the provider in one round trip; on
success it reports success, redirects to the entry point, and the
subsequent null stream event drives the session to Anonymous; when the
provider call throws, the error propagates to the caller, no redirect
happens, and the session state is not changed by the call. -/
theorem signOut_behavior (st : SessionState) (store : Store)
    (e : AuthError) (now : Nat) :
    (logout st store (Except.ok ())).1.result = Except.ok () ∧
    (logout st store (Except.ok ())).2 = true ∧
    (logout st store (Except.error e)).1.result = Except.error e ∧
    (logout st store (Except.error e)).2 = false ∧
    (logout st store (Except.error e)).1.state = st ∧
    (streamEvent store none now).1.user = none ∧
    (streamEvent store none now).1.userRole = none := by
  simp [logout, streamEvent]

/-- C6: a successful `signup(email, password, displayName)` creates the
identity, sets its display name, writes a Role Record keyed by the new id
with the submitted name and email and role `user`, and leaves the session
with role `user`; in particular the `("new@x.com", "password123", "Jane")`
scenario yields exactly that record. -/
theorem signup_creates_regular_record (st : SessionState) (store : Store)
    (u : Identity) (email pw name : String) (now : Nat) :
    (signup st store (Except.ok u) email pw name now).result =
      Except.ok () ∧
    getDoc (signup st store (Except.ok u) email pw name now).store u.uid =
      some { name := name, email := email
             role := UserRole.user, createdAt := now } ∧
    (signup st store (Except.ok u) email pw name now).state.userRole =
      some UserRole.user ∧
    (signup st store (Except.ok u) email pw name now).state.user =
      some { u with displayName := some name } ∧
    getDoc (signup anonState []
        (Except.ok u0) "new@x.com" "password123" "Jane" 0).store u0.uid =
      some { name := "Jane", email := "new@x.com"
             role := UserRole.user, createdAt := 0 } := by
  refine ⟨rfl, ?_, rfl, rfl, ?_⟩
  · simp [signup, getDoc_setDoc]
  · decide

/-- C7 counterexample: the per-operation round-trip accounting fails on
three counts — `signup` makes two identity-provider round trips (identity
creation plus the display-name update), federated sign-in makes a
document-store round trip (the lookup) even when the existing record means
nothing is created or updated, and an avatar update makes two blob-storage
round trips (upload plus download-URL fetch). -/
theorem roundtrip_accounting_counterexample :
    ((signup anonState [] (Except.ok u0)
        "new@x.com" "password123" "Jane" 0).trips.count
      RoundTrip.provider = 2) ∧
    (getDoc store0 u0.uid).isSome = true ∧
    ((googleSignIn anonState store0 (Except.ok u0) 0).store = store0) ∧
    ((googleSignIn anonState store0 (Except.ok u0) 0).trips.count
      RoundTrip.store = 1) ∧
    ((updateUser (authState u0 UserRole.user) store0 "Jane"
        (AvatarField.blob [1])).trips.count RoundTrip.blob = 2) := by
  refine ⟨?_, ?_, ?_, ?_, ?_⟩ <;> decide

/-- C7 amended: the actual round-trip traces — `login` and `logout` make
exactly one provider trip; a successful `signup` makes two provider trips
then one store write; federated sign-in makes one provider trip and one
store read, plus one store write only when no Role Record exists; an
authenticated `updateUser` makes one provider trip and one store write,
preceded by two blob trips when an avatar blob is uploaded; an anonymous
`updateUser` makes none. -/
theorem roundtrip_accounting (st : SessionState) (store : Store)
    (r : Except AuthError Identity) (u fu : Identity) (e : AuthError)
    (email pw name : String) (now : Nat) (b : List Nat) :
    (login st store r).trips = [RoundTrip.provider] ∧
    (signup st store (Except.ok u) email pw name now).trips =
      [RoundTrip.provider, RoundTrip.provider, RoundTrip.store] ∧
    (signup st store (Except.error e) email pw name now).trips =
      [RoundTrip.provider] ∧
    (logout st store (Except.ok ())).1.trips = [RoundTrip.provider] ∧
    (logout st store (Except.error e)).1.trips = [RoundTrip.provider] ∧
    (googleSignIn st store (Except.error e) now).trips =
      [RoundTrip.provider] ∧
    (∀ rr, getDoc store u.uid = some rr →
      (googleSignIn st store (Except.ok u) now).trips =
        [RoundTrip.provider, RoundTrip.store]) ∧
    (getDoc store u.uid = none →
      (googleSignIn st store (Except.ok u) now).trips =
        [RoundTrip.provider, RoundTrip.store, RoundTrip.store]) ∧
    (st.firebaseUser = some fu →
      (updateUser st store name (AvatarField.blob b)).trips =
        [RoundTrip.blob, RoundTrip.blob,
         RoundTrip.provider, RoundTrip.store] ∧
      (updateUser st store name AvatarField.absent).trips =
        [RoundTrip.provider, RoundTrip.store]) ∧
    (st.firebaseUser = none →
      (updateUser st store name AvatarField.absent).trips = []) := by
  refine ⟨rfl, rfl, rfl, rfl, rfl, rfl, ?_, ?_, ?_, ?_⟩
  · intro rr h; simp [googleSignIn, h]
  · intro h; simp [googleSignIn, h]
  · intro h; simp [updateUser, h]
  · intro h; simp [updateUser, h]

/-- C7 amended witness: the trace equations at concrete inputs. -/
theorem roundtrip_accounting_witness :
    (googleSignIn anonState store0 (Except.ok u0) 0).trips =
      [RoundTrip.provider, RoundTrip.store] ∧
    (updateUser (authState u0 UserRole.user) store0 "Jane"
        (AvatarField.blob [1])).trips =
      [RoundTrip.blob, RoundTrip.blob,
       RoundTrip.provider, RoundTrip.store] :=
  ⟨(roundtrip_accounting anonState store0 (Except.ok u0) u0 u0
      AuthError.networkError "e" "p" "Jane" 0 [1]).2.2.2.2.2.2.1
      rec0 rfl,
   ((roundtrip_accounting (authState u0 UserRole.user) store0
      (Except.ok u0) u0 u0
      AuthError.networkError "e" "p" "Jane" 0 [1]).2.2.2.2.2.2.2.2.1
      rfl).1⟩

/-- C8: `login` performs no direct mutation of the session state or store
— it only surfaces the provider's outcome, so a provider rejection with
`InvalidCredentials` propagates unchanged — and any state transition is
driven by the subsequent stream event, which installs the identity. -/
theorem login_no_direct_mutation (st : SessionState) (store : Store)
    (r : Except AuthError Identity) (u : Identity) (now : Nat) :
    (login st store r).state = st ∧
    (login st store r).store = store ∧
    (login st store r).result = r ∧
    (login st store (Except.error AuthError.invalidCredentials)).result =
      Except.error AuthError.invalidCredentials ∧
    (streamEvent store (some u) now).1.user = some u := by
  refine ⟨rfl, rfl, rfl, rfl, ?_⟩
  simp only [streamEvent]
  cases getDoc store u.uid <;> rfl

/-- C9: the auth context's mount effect opens exactly one stream
subscription, and the cleanup it returns cancels exactly that
subscription, so a mount/teardown cycle leaves the live-subscription set
as it was — no leaked and no duplicate subscription. -/
theorem single_subscription_discipline (p : SubPool) (h : freshPool p) :
    (authEffect p).1.live.length = p.live.length + 1 ∧
    ((authEffect p).2 (authEffect p).1).live = p.live := by
  constructor
  · simp [authEffect, subscribeStream]
  · simp only [authEffect, subscribeStream, unsubscribeStream,
      List.filter_append]
    have h1 : p.live.filter (fun x => x != p.nextId) = p.live := by
      refine List.filter_eq_self.mpr ?_
      intro a ha
      simp only [bne_iff_ne, ne_eq, decide_eq_true_eq]
      exact Nat.ne_of_lt (h a ha)
    have h2 : [p.nextId].filter (fun x => x != p.nextId) = [] := by
      simp
    simp [h1, h2]

/-- C9 witness: mounting over an empty pool yields one live subscription
and tearing down restores the empty pool. -/
theorem single_subscription_discipline_witness :
    (authEffect { nextId := 0, live := [] }).1.live.length = 1 ∧
    ((authEffect { nextId := 0, live := [] }).2
      (authEffect { nextId := 0, live := [] }).1).live = [] :=
  ⟨(single_subscription_discipline { nextId := 0, live := [] }
      (by intro x hx; cases hx)).1,
   (single_subscription_discipline { nextId := 0, live := [] }
      (by intro x hx; cases hx)).2⟩

/-- C10: calling `useAuth` outside an AuthProvider (undefined context)
throws, while inside a provider it returns the context value and never
throws. -/
theorem useAuth_contract (c : SessionState) :
    useAuthHook none = Except.error AuthError.outsideProvider ∧
    useAuthHook (some c) = Except.ok c :=
  ⟨rfl, rfl⟩

end Travonex
